import Mathlib

/-!
Verification development for the EV charging-station demand-forecasting backend.

The Python sources (`backend/app.py`, `backend/utils.py`) are shallowly embedded:
tabular data becomes a `Table` of rows of named `Cell`s, pandas coercions become
`Option`-valued functions, timestamps become natural-number seconds, float values
become rationals (`ℚ`), and the numerical fitting routines of statsmodels (SARIMAX
fit, acf/pacf) — which are external to the repository — are abstracted as oracle
parameters.  `pd.Grouper(freq=...)` inside `groupby` has resample semantics: the
produced bins cover the whole range from the first to the last observed bucket at
the fixed frequency, and bins with no source rows still appear (sums over an empty
bin are 0, counts are 0, means are missing).  The embedding reproduces that.
-/

/-- Substring test on character lists: `subAux pat s` is true iff `pat` occurs
contiguously in `s` (Python's `pat in s`). -/
def subAux (pat : List Char) : List Char → Bool
  | [] => pat.isPrefixOf []
  | c :: rest => pat.isPrefixOf (c :: rest) || subAux pat rest

/-- Python's substring containment `pat in s` for strings. -/
def strContains (s pat : String) : Bool :=
  subAux pat.data s.data

/-- ASCII lowercase of one character (kernel-reducible). -/
def lowerChar (c : Char) : Char :=
  if 'A' ≤ c ∧ c ≤ 'Z' then Char.ofNat (c.toNat + 32) else c

/-- Python's `str.lower()` on the ASCII column names involved. -/
def lowerStr (s : String) : String :=
  String.mk (s.data.map lowerChar)

/-- A cell of a raw tabular dataset.  `time t` stands for a value that
`pd.to_datetime` parses to the timestamp `t` (seconds); a `str`, `num`, `bool`
or `null` cell stands for a value that does not parse as a timestamp. -/
inductive Cell where
  | null
  | str (s : String)
  | num (q : ℚ)
  | time (t : Nat)
  | bool (b : Bool)
deriving DecidableEq

/-- A raw row: association list from column name to cell. -/
abbrev Row := List (String × Cell)

/-- A raw table: ordered column names and rows. -/
structure Table where
  cols : List String
  rows : List Row
deriving DecidableEq

/-- `df.empty`: a DataFrame is empty when it has no rows or no columns. -/
def Table.isEmptyTable (t : Table) : Bool :=
  t.rows.isEmpty || t.cols.isEmpty

/-- Cell of row `r` in column `c` (missing → null). -/
def getCell (r : Row) (c : String) : Cell :=
  (r.lookup c).getD Cell.null

/-- `pd.to_datetime(x, errors="coerce")` on one cell. -/
def toDatetime : Cell → Option Nat
  | Cell.time t => some t
  | _ => none

/-- `pd.to_numeric(x, errors="coerce")` on one cell. -/
def toNumeric : Cell → Option ℚ
  | Cell.num q => some q
  | Cell.bool b => some (if b then 1 else 0)
  | _ => none

/-- Equality comparison `df[site_col] == site` between a cell and a string. -/
def cellEqStr (c : Cell) (s : String) : Bool :=
  match c with
  | Cell.str v => v = s
  | _ => false

/-- Aggregation frequency: `"H"` (hourly) or `"D"` (daily). -/
inductive Freq where
  | H
  | D
deriving DecidableEq

/-- Width of one bucket in seconds. -/
def Freq.step : Freq → Nat
  | Freq.H => 3600
  | Freq.D => 86400

/-- Truncation of a timestamp to its bucket boundary. -/
def truncTo (f : Freq) (t : Nat) : Nat :=
  (t / f.step) * f.step

/-- The earliest bucket boundary among the given timestamps (0 on []). -/
def minBucketL (f : Freq) : List Nat → Nat
  | [] => 0
  | t :: rest => (rest.map (truncTo f)).foldl min (truncTo f t)

/-- The latest bucket boundary among the given timestamps (0 on []). -/
def maxBucketL (f : Freq) : List Nat → Nat
  | [] => 0
  | t :: rest => (rest.map (truncTo f)).foldl max (truncTo f t)

/-- The bins produced by `groupby(pd.Grouper(freq=...))` on the given (surviving)
timestamps: every frequency-aligned bucket from the smallest observed bucket to
the largest, empty ones included (resample semantics). -/
def bucketIndex (f : Freq) : List Nat → List Nat
  | [] => []
  | t :: rest =>
    (List.range
        ((maxBucketL f (t :: rest) - minBucketL f (t :: rest)) / f.step + 1)).map
      (fun i => minBucketL f (t :: rest) + i * f.step)

namespace AppPy

/-- `app._guess_timestamp_col`: exact candidate names first, then the first
column whose lowercased name contains "time" or "date". -/
def _guess_timestamp_col (t : Table) : Option String :=
  match ["connectionTime", "timestamp", "ts", "start", "date"].find?
      (fun cand => t.cols.contains cand) with
  | some c => some c
  | none => t.cols.find? (fun c =>
      strContains (lowerStr c) "time" || strContains (lowerStr c) "date")

/-- `app._guess_energy_col`: exact candidate names only. -/
def _guess_energy_col (t : Table) : Option String :=
  ["energy_kwh", "kWhDelivered", "kwh", "energy"].find?
    (fun cand => t.cols.contains cand)

/-- `app._guess_site_col`: exact candidate names only. -/
def _guess_site_col (t : Table) : Option String :=
  ["site", "siteID", "clusterID", "stationID"].find?
    (fun cand => t.cols.contains cand)

/-- `df["ts"] = pd.to_datetime(df[ts_col], errors="coerce"); df.dropna(subset=["ts"])`:
rows paired with their parsed timestamp, unparseable rows dropped. -/
def dropBadTs (rows : List Row) (tsCol : String) : List (Row × Nat) :=
  rows.filterMap (fun r => (toDatetime (getCell r tsCol)).map (fun t => (r, t)))

/-- Per-row energy in kWh: coerce to numeric, divide by 1000 when the column
name implies watt-hours ("wh" but not "kwh"), `fillna(0.0)`; 0.0 when no energy
column was detected. -/
def energyOf (energyCol : Option String) (r : Row) : ℚ :=
  match energyCol with
  | none => 0
  | some c =>
    let s := toNumeric (getCell r c)
    let s := if strContains (lowerStr c) "wh" && !strContains (lowerStr c) "kwh"
             then s.map (fun q => q / 1000) else s
    s.getD 0

/-- `df = df[df[site_col] == site]` when both a filter and a site column exist. -/
def siteFilter (siteCol : Option String) (site : Option String)
    (rows : List (Row × Nat)) : List (Row × Nat) :=
  match site, siteCol with
  | some s, some c => rows.filter (fun rt => cellEqStr (getCell rt.1 c) s)
  | _, _ => rows

/-- The canonical session rows that survive timestamp coercion and the site
filter (the rows `agg_df` is built from). -/
def survivors (raw : Table) (site : Option String) : List (Row × Nat) :=
  match _guess_timestamp_col raw with
  | none => []
  | some tsCol => siteFilter (_guess_site_col raw) site (dropBadTs raw.rows tsCol)

/-- Names of the extra aggregated columns, in the dict-insertion order of
`extra_cols` in `build_hourly_daily`. -/
def extraNames (raw : Table) : List String :=
  (["WhPerMile", "kWhRequested", "milesRequested", "minutesAvailable"].filter
      (fun c => raw.cols.contains c))
  ++ (if raw.cols.contains "paymentRequired" then ["paid_sessions"] else [])
  ++ (if raw.cols.contains "userID" then ["identified_users"] else [])

/-- `df["paymentRequired"].astype("float")` on one cell: bool → 1.0/0.0,
numbers pass through, missing stays missing (then `fillna(0.0)` at the caller). -/
def paymentFloat : Cell → Option ℚ
  | Cell.bool b => some (if b then 1 else 0)
  | Cell.num q => some q
  | _ => none

/-- Value of an extra column on one canonical row. -/
def extraVal (r : Row) (name : String) : Option ℚ :=
  if name = "paid_sessions" then
    some ((paymentFloat (getCell r "paymentRequired")).getD 0)
  else if name = "identified_users" then
    some (if getCell r "userID" = Cell.null then 0 else 1)
  else
    toNumeric (getCell r name)

/-- The group of surviving rows falling in bucket `b`. -/
def groupAt (raw : Table) (site : Option String) (f : Freq) (b : Nat) :
    List (Row × Nat) :=
  (survivors raw site).filter (fun rt => truncTo f rt.2 = b)

/-- Aggregated `energy_kwh` of bucket `b` (sum; 0 on an empty bucket). -/
def bucketEnergy (raw : Table) (site : Option String) (f : Freq) (b : Nat) : ℚ :=
  ((groupAt raw site f b).map (fun rt => energyOf (_guess_energy_col raw) rt.1)).sum

/-- Aggregated `sessions` of bucket `b` (count of rows; 0 on an empty bucket). -/
def bucketSessions (raw : Table) (site : Option String) (f : Freq) (b : Nat) : Nat :=
  (groupAt raw site f b).length

/-- Aggregated value of extra column `name` on bucket `b`: sum for the
indicator columns, mean of present values otherwise (missing when no value is
present, as pandas `mean` over an all-missing group yields NaN). -/
def bucketExtra (raw : Table) (site : Option String) (f : Freq) (b : Nat)
    (name : String) : Option ℚ :=
  let vals := (groupAt raw site f b).filterMap (fun rt => extraVal rt.1 name)
  if name = "paid_sessions" || name = "identified_users" then
    some vals.sum
  else
    if vals.isEmpty then none else some (vals.sum / vals.length)

/-- An aggregated series: column names, bucket index, and per-bucket cell
values (missing = NaN). -/
structure AggOut where
  columns : List String
  index : List Nat
  data : List (List (Option ℚ))
deriving DecidableEq

/-- `pd.DataFrame(columns=["energy_kwh", "sessions"])`: the empty-shape result. -/
def emptyAgg : AggOut :=
  { columns := ["energy_kwh", "sessions"], index := [], data := [] }

/-- `app.build_hourly_daily`: aggregate raw session data into an hourly/daily
series (energy sum, session count, extra means/sums), with empty-shape results
on empty input, undetectable timestamp column, no surviving rows, or an
all-filtering site filter. -/
def build_hourly_daily (raw : Table) (site : Option String) (f : Freq) : AggOut :=
  if raw.isEmptyTable then emptyAgg
  else
    match _guess_timestamp_col raw with
    | none => emptyAgg
    | some tsCol =>
      if (dropBadTs raw.rows tsCol).isEmpty then emptyAgg
      else
        if (siteFilter (_guess_site_col raw) site (dropBadTs raw.rows tsCol)).isEmpty then
          emptyAgg
        else
          { columns := "energy_kwh" :: "sessions" :: extraNames raw,
            index := bucketIndex f
              ((siteFilter (_guess_site_col raw) site (dropBadTs raw.rows tsCol)).map
                (fun rt => rt.2)),
            data := (bucketIndex f
              ((siteFilter (_guess_site_col raw) site (dropBadTs raw.rows tsCol)).map
                (fun rt => rt.2))).map (fun b =>
              some (bucketEnergy raw site f b)
              :: some ((bucketSessions raw site f b : ℚ))
              :: (extraNames raw).map (fun n => bucketExtra raw site f b n)) }

end AppPy

namespace UtilsPy

def TIMESTAMP_HINTS : List String :=
  ["time", "timestamp", "datetime", "date",
   "start", "end", "connection", "disconnect", "sessionstart", "sessionend"]

def ENERGY_HINTS : List String := ["kwh", "energy", "kwhdelivered", "wh"]

def SITE_HINTS : List String :=
  ["site", "station", "site_name", "location", "siteid", "stationid"]

/-- `utils._find_col`: first column (in column order) whose lowercased name
contains one of the hints. -/
def _find_col (df : Table) (hints : List String) : Option String :=
  df.cols.find? (fun c => hints.any (fun h => strContains (lowerStr c) h))

/-- The pandas dtype a column of cells gets, as far as the detector inspects it
(`object`/`string` for mixed or textual data, a `datetime64` dtype for parsed
timestamps, numeric otherwise). -/
def dtypeOf (df : Table) (c : String) : String :=
  let cells := df.rows.map (fun r => getCell r c)
  if !cells.isEmpty
      && cells.all (fun x => match x with | Cell.time _ => true | _ => false) then
    "datetime64"
  else if !cells.isEmpty
      && cells.all (fun x => match x with
        | Cell.num _ => true | Cell.null => true | _ => false) then
    "float64"
  else if !cells.isEmpty
      && cells.all (fun x => match x with | Cell.bool _ => true | _ => false) then
    "bool"
  else "object"

/-- Result of `utils.detect_columns`, in source order
`(timestamp_col, start_col, end_col, energy_col)`. -/
structure DetectedCols where
  ts_col : Option String
  start_col : Option String
  end_col : Option String
  energy_col : Option String
deriving DecidableEq

/-- `utils.detect_columns`: energy by hint substring; timestamp first by
"timestamp"/"datetime" substring, else "time"/"date" substring with a
textual-or-datetime dtype; start/end by `_find_col` hints. -/
def detect_columns (df : Table) : DetectedCols :=
  let energy_col := df.cols.find? (fun c =>
    ENERGY_HINTS.any (fun h => strContains (lowerStr c) h))
  let ts1 := df.cols.find? (fun c =>
    strContains (lowerStr c) "timestamp" || strContains (lowerStr c) "datetime")
  let timestamp_col :=
    match ts1 with
    | some c => some c
    | none => df.cols.find? (fun c =>
        (strContains (lowerStr c) "time" || strContains (lowerStr c) "date")
        && (dtypeOf df c = "object" || dtypeOf df c = "string"
            || strContains (dtypeOf df c) "datetime"))
  let start_col := _find_col df ["start", "connection", "connect"]
  let end_col := _find_col df ["end", "disconnect", "disconnecttime", "sessionend"]
  { ts_col := timestamp_col, start_col := start_col,
    end_col := end_col, energy_col := energy_col }

/-- `utils.coerce_times` on column `col`: parse every cell, unparseable → missing
(the UTC round-trip is the identity on already-normalized timestamps). -/
def coerce_times (df : Table) (col : String) : List (Option Nat) :=
  df.rows.map (fun r => toDatetime (getCell r col))

/-- `utils.coerce_energy` on a single cell of column `col`: coerce to numeric
and divide by 1000 when the column name contains "wh" but not "kwh". -/
def coerce_energy_val (col : String) (x : Cell) : Option ℚ :=
  let s := toNumeric x
  if strContains (lowerStr col) "wh" && !strContains (lowerStr col) "kwh" then
    s.map (fun q => q / 1000)
  else s

/-- `utils.coerce_energy` on the whole column `col`. -/
def coerce_energy (df : Table) (col : String) : List (Option ℚ) :=
  df.rows.map (fun r => coerce_energy_val col (getCell r col))

/-- String rendering of a cell under `astype(str)` (abstracting Python's
`str()` on non-string values). -/
def cellToStr : Cell → String
  | Cell.str s => s
  | Cell.num q => toString q
  | Cell.bool b => if b then "True" else "False"
  | Cell.time t => toString t
  | Cell.null => "nan"

/-- `utils.add_site`: the per-row site labels — first hint (hints outermost)
that matches a column, values `fillna("default").astype(str)`; the constant
"default" column when no site column matches. -/
def add_site (df : Table) : List String :=
  let site_col := SITE_HINTS.findSome? (fun h =>
    df.cols.find? (fun c => strContains (lowerStr c) h))
  match site_col with
  | none => df.rows.map (fun _ => "default")
  | some c => df.rows.map (fun r =>
      match getCell r c with
      | Cell.null => "default"
      | x => cellToStr x)

/-- Aggregated output of `utils.build_hourly_daily`: fixed columns
`energy_kwh` (sum) and `sessions` (count) over the bucket index. -/
structure AggOutU where
  index : List Nat
  energy_kwh : List ℚ
  sessions : List Nat
deriving DecidableEq

/-- `utils.build_hourly_daily`: detect columns, take timestamps from the
timestamp column, else the end column, else the start column, else raise;
coerce energy (0 when undetected), attach sites, drop rows with missing
timestamps, apply a truthy site filter, and group into frequency buckets
(the `assert freq in ("H","D")` is enforced by the `Freq` type). -/
def build_hourly_daily (df : Table) (site : Option String) (f : Freq) :
    Except String AggOutU :=
  let dc := detect_columns df
  let ts? : Option (List (Option Nat)) :=
    match dc.ts_col with
    | some c => some (coerce_times df c)
    | none =>
      match dc.end_col with
      | some c => some (coerce_times df c)
      | none =>
        match dc.start_col with
        | some c => some (coerce_times df c)
        | none => none
  match ts? with
  | none =>
    Except.error
      "No timestamp/start/end column found; map columns explicitly in your CSV/JSON."
  | some ts =>
    let energy : List (Option ℚ) :=
      match dc.energy_col with
      | some c => coerce_energy df c
      | none => df.rows.map (fun _ => some 0)
    let sites := add_site df
    let recs : List (Nat × ℚ × String) :=
      (ts.zip (energy.zip sites)).filterMap
        (fun p => p.1.map (fun t => (t, p.2.1.getD 0, p.2.2)))
    let recs2 : List (Nat × ℚ × String) :=
      match site with
      | some s => if s ≠ "" then recs.filter (fun sr => sr.2.2 == s) else recs
      | none => recs
    let idx := bucketIndex f (recs2.map (fun sr => sr.1))
    Except.ok
      { index := idx,
        energy_kwh := idx.map (fun b =>
          ((recs2.filter (fun sr => truncTo f sr.1 = b)).map
            (fun sr => sr.2.1)).sum),
        sessions := idx.map (fun b =>
          (recs2.filter (fun sr => truncTo f sr.1 = b)).length) }

end UtilsPy

namespace AppPy

/-- A SARIMAX non-seasonal order `(p, d, q)`. -/
abbrev Order := Nat × Nat × Nat

/-- A SARIMAX seasonal order `(P, D, Q, period)`. -/
abbrev SOrder := Nat × Nat × Nat × Nat

/-- `seasonal_order if seasonal_order[-1] != 0 else (0, 0, 0, 0)`. -/
def adjSeasonal (so : SOrder) : SOrder :=
  if so.2.2.2 ≠ 0 then so else (0, 0, 0, 0)

/-- Result of a successful `SARIMAX(...).fit()`, abstracting the statsmodels
numerics: the AIC score and the forecasting outputs for a requested number of
steps (`get_forecast(steps).predicted_mean` and the `conf_int(alpha=0.2)`
bounds). -/
structure FitRes where
  aic : ℚ
  predMean : Nat → List ℚ
  confLower : Nat → List ℚ
  confUpper : Nat → List ℚ

/-- A fitting oracle for a fixed endogenous series: `none` models an exception
raised by `SARIMAX(...).fit()`. -/
abbrev Fit := Order → SOrder → Option FitRes

/-- The non-seasonal order grid of `small_grid_search`:
`p in range(0,3)`, `d in (0,1)`, `q in range(0,3)`, in loop order. -/
def pdqList : List Order :=
  (List.range 3).flatMap (fun p =>
    [0, 1].flatMap (fun d =>
      (List.range 3).map (fun q => (p, d, q))))

/-- The seasonal grid of `small_grid_search`: `(P, D, Q, period)` with
`P, D, Q in {0, 1}` when the period exceeds 1, otherwise the single
non-seasonal tuple. -/
def sPDQList (sp : Nat) : List SOrder :=
  if 1 < sp then
    [0, 1].flatMap (fun P =>
      [0, 1].flatMap (fun D =>
        [0, 1].map (fun Q => (P, D, Q, sp))))
  else [(0, 0, 0, 0)]

/-- All candidates of `small_grid_search` in loop order (orders outermost). -/
def gridCandidates (sp : Nat) : List (Order × SOrder) :=
  pdqList.flatMap (fun o => (sPDQList sp).map (fun so => (o, so)))

/-- One iteration of the `small_grid_search` loop: skip a failing fit, keep the
strictly smaller AIC (first minimum wins ties). -/
def gridStep (fit : Fit) (best : Option (ℚ × Order × SOrder))
    (c : Order × SOrder) : Option (ℚ × Order × SOrder) :=
  match fit c.1 (adjSeasonal c.2) with
  | none => best
  | some res =>
    match best with
    | none => some (res.aic, c.1, c.2)
    | some b => if res.aic < b.1 then some (res.aic, c.1, c.2) else some b

/-- `app.small_grid_search`: exhaustive small SARIMA grid scored by AIC;
raises when every candidate fails to fit. -/
def small_grid_search (fit : Fit) (seasonal_period : Nat) :
    Except String (ℚ × Order × SOrder) :=
  match (gridCandidates seasonal_period).foldl (gridStep fit) none with
  | none => Except.error "Grid search failed. Try different settings or more data."
  | some b => Except.ok b

/-- Accuracy metrics of `app.evaluate_np`.  `MSE` stores the mean squared
error whose square root the code reports as RMSE (the root is irrational over
`ℚ`; no claim depends on the reported value). -/
structure Metrics where
  MAE : ℚ
  MSE : ℚ
  MAPE : ℚ
deriving DecidableEq

/-- `app.evaluate_np` on the held-out actuals and predictions, with the 1e-8
floor denominator of the MAPE. -/
def evaluate_np (y_true y_pred : List ℚ) : Metrics :=
  let diffs := (y_true.zip y_pred).map (fun p => p.1 - p.2)
  let n : ℚ := diffs.length
  { MAE := (diffs.map (fun d => abs d)).sum / n,
    MSE := (diffs.map (fun d => d * d)).sum / n,
    MAPE := ((y_true.zip y_pred).map (fun p =>
      abs ((p.1 - p.2) / max (1 / 100000000) (abs p.1)))).sum / n * 100 }

/-- The `ForecastRequest` pydantic model, with its defaults. -/
structure ForecastRequest where
  site : Option String := none
  metric : String := "energy"
  freq : Freq := Freq.H
  seasonal_period : Nat := 24
  horizon : Nat := 48
  test_size : Nat := 48
  auto_grid : Bool := true
  order : Option Order := none
  seasonal_order : Option SOrder := none

/-- `app._select_series`: pick the metric column of the aggregated frame as a
timestamp-indexed series, raising (as `Except.error`) on an unknown metric or
a missing column. -/
def _select_series (agg : AggOut) (metric : String) :
    Except String (List (Nat × Option ℚ)) :=
  match (if metric = "energy" then some "energy_kwh"
         else if metric = "sessions" then some "sessions"
         else none) with
  | none => Except.error "metric must be 'energy' or 'sessions'"
  | some col =>
    if agg.columns.contains col then
      let i := agg.columns.indexOf col
      Except.ok (agg.index.zip (agg.data.map (fun row => (row.get? i).getD none)))
    else
      Except.error ("Required column '" ++ col ++ "' missing from aggregated data.")

/-- One row of the future-forecast frame `fut`. -/
structure FRow where
  ts : Nat
  y_pred : ℚ
  lower : ℚ
  upper : ℚ
deriving DecidableEq

/-- One row of the validation frame `val_df`. -/
structure VRow where
  ts : Nat
  y_true : ℚ
  y_pred : ℚ
deriving DecidableEq

/-- The dictionary `_run_model` returns. -/
structure RunOut where
  fallback : Bool
  forecast_df : List FRow
  order : Order
  seasonal_order : SOrder
  metrics : Option Metrics
  val_df : Option (List VRow)

/-- Timestamp of the last observed point, `y.index[-1]` (0 on an empty series,
never hit by callers). -/
def lastTs (y : List (Nat × ℚ)) : Nat :=
  ((y.getLast?).map (fun p => p.1)).getD 0

/-- Value of the last observed point, `float(y.iloc[-1])`. -/
def lastVal (y : List (Nat × ℚ)) : ℚ :=
  ((y.getLast?).map (fun p => p.2)).getD 0

/-- `min(5, len(y)//2)`: how far back the fallback trend looks. -/
def trendBack (y : List (Nat × ℚ)) : Nat :=
  min 5 (y.length / 2)

/-- `y.iloc[-min(5, len(y)//2)]` (Python's `iloc[-0]` is `iloc[0]`). -/
def trendBase (y : List (Nat × ℚ)) : ℚ :=
  let k := trendBack y
  let i := if k = 0 then 0 else y.length - k
  ((y.get? i).map (fun p => p.2)).getD 0

/-- The fallback trend
`(y.iloc[-1] - y.iloc[-min(5, len(y)//2)]) / max(1, min(5, len(y)//2))`. -/
def trendOf (y : List (Nat × ℚ)) : ℚ :=
  (lastVal y - trendBase y) / (max 1 (trendBack y) : Nat)

/-- The naive linear-trend fallback frame: point forecasts
`last_val + trend * k` for `k = 1..horizon` at the future bucket timestamps,
with `lower = 0.9 * y_pred` and `upper = 1.1 * y_pred`. -/
def fallbackForecast (y : List (Nat × ℚ)) (f : Freq) (horizon : Nat) : List FRow :=
  (List.range horizon).map (fun j =>
    let pred := lastVal y + trendOf y * (j + 1 : Nat)
    { ts := lastTs y + (j + 1) * f.step,
      y_pred := pred,
      lower := pred * (9 / 10),
      upper := pred * (11 / 10) })

/-- The candidate list of the responsive in-endpoint grid. -/
def quickGrid : List Order := [(1, 1, 1), (2, 1, 1), (1, 0, 1), (0, 1, 1)]

/-- The order selected by `_run_model`'s preamble: fixed `(1,1,1)` for short
training series, the best-AIC candidate of the quick grid under `auto_grid`
(skipping failed fits, `(1,1,1)` when all fail), or the caller's explicit
orders. -/
def selectOrders (fit : Fit) (req : ForecastRequest) (trainLen : Nat) :
    Order × SOrder :=
  if trainLen < 100 then ((1, 1, 1), (0, 0, 0, 0))
  else if req.auto_grid then
    let best := quickGrid.foldl (fun best o =>
      match fit o (0, 0, 0, 0) with
      | none => best
      | some res =>
        match best with
        | none => some (res.aic, o)
        | some b => if res.aic < b.1 then some (res.aic, o) else b) none
    (((best.map (fun b => b.2)).getD (1, 1, 1)), (0, 0, 0, 0))
  else (req.order.getD (1, 1, 1), req.seasonal_order.getD (0, 0, 0, 0))

/-- `app.forecast._run_model`: select orders, fit (via the oracle), fall back
to the linear-trend frame on a fit exception, otherwise produce validation
predictions with metrics and the future forecast with its 80% interval. -/
def _run_model (fit : Fit) (req : ForecastRequest)
    (y y_train y_test : List (Nat × ℚ)) : RunOut :=
  let (order, seasonal_order) := selectOrders fit req y_train.length
  match fit order (adjSeasonal seasonal_order) with
  | none =>
    { fallback := true,
      forecast_df := fallbackForecast y req.freq req.horizon,
      order := (0, 0, 0), seasonal_order := (0, 0, 0, 0),
      metrics := none, val_df := none }
  | some res =>
    let metrics :=
      if 0 < y_test.length then
        some (evaluate_np (y_test.map (fun p => p.2)) (res.predMean y_test.length))
      else none
    let val_df :=
      if 0 < y_test.length then
        some ((y_test.zip (res.predMean y_test.length)).map
          (fun p => { ts := p.1.1, y_true := p.1.2, y_pred := p.2 : VRow }))
      else none
    let fm := res.predMean req.horizon
    let lo := res.confLower req.horizon
    let hi := res.confUpper req.horizon
    let futIdx := (List.range req.horizon).map (fun j => lastTs y + (j + 1) * req.freq.step)
    let fut := (futIdx.zip (fm.zip (lo.zip hi))).map
      (fun p => { ts := p.1, y_pred := p.2.1, lower := p.2.2.1, upper := p.2.2.2 : FRow })
    { fallback := false, forecast_df := fut,
      order := order, seasonal_order := seasonal_order,
      metrics := metrics, val_df := val_df }

/-- The successful payload of the `/forecast` route. -/
structure OkResp where
  order : Order
  seasonal_order : SOrder
  metric : String
  freq : Freq
  horizon : Nat
  test_size : Nat
  metrics : Option Metrics
  history : List (Nat × ℚ)
  validation : Option (List VRow)
  forecast : List FRow
deriving DecidableEq

/-- Response of the `/forecast` route.  `exn` models a raised `ValueError`
propagating out of `_select_series`; the wall-clock timeout branch concerns
real time and is outside the embedding (the oracle computation is modeled as
completing). -/
inductive ForecastResp where
  | err (message : String)
  | insufficient (message : String) (series_length : Nat)
  | exn (e : String)
  | ok (r : OkResp)
deriving DecidableEq

/-- The metric series `/forecast` works on: selected column of the aggregated
frame, missing values dropped ([] on the error paths). -/
def forecastSeries (raw : Table) (req : ForecastRequest) : List (Nat × ℚ) :=
  match _select_series (build_hourly_daily raw req.site req.freq) req.metric with
  | Except.ok s0 => s0.filterMap (fun p => p.2.map (fun q => (p.1, q)))
  | Except.error _ => []

/-- `app.forecast`: aggregate, select the metric series, refuse on missing or
insufficient data, shrink `test_size`/`horizon` for short series, split into
train/validation, and run `_run_model`.  The fitting oracle takes the
endogenous training series explicitly. -/
def forecast (fitO : List (Nat × ℚ) → Fit) (raw : Table)
    (req : ForecastRequest) : ForecastResp :=
  let agg := build_hourly_daily raw req.site req.freq
  if agg.index.isEmpty then
    ForecastResp.err "No aggregated data available for forecasting."
  else
    match _select_series agg req.metric with
    | Except.error e => ForecastResp.exn e
    | Except.ok series0 =>
      let series := series0.filterMap (fun p => p.2.map (fun q => (p.1, q)))
      if series.length < 20 then
        ForecastResp.insufficient "Not enough data points for forecasting." series.length
      else
        let shrink := series.length < max 50 (req.horizon + req.test_size + 5)
        let test_size1 := if shrink then min req.test_size (max 12 (series.length / 5))
                          else req.test_size
        let horizon1 := if shrink then min req.horizon (max 12 (series.length / 6))
                        else req.horizon
        let y := series
        let test_size2 := if y.length / 2 ≤ test_size1 then max 12 (y.length / 5)
                          else test_size1
        let y_train := if 0 < test_size2 then y.take (y.length - test_size2) else y
        let y_test := if 0 < test_size2 then y.drop (y.length - test_size2) else []
        let req1 : ForecastRequest := { req with test_size := test_size2, horizon := horizon1 }
        let result := _run_model (fitO y_train) req1 y y_train y_test
        ForecastResp.ok
          { order := result.order,
            seasonal_order := result.seasonal_order,
            metric := req.metric,
            freq := req.freq,
            horizon := horizon1,
            test_size := test_size2,
            metrics := if result.fallback then none else result.metrics,
            history := y,
            validation := if result.fallback then none else result.val_df,
            forecast := result.forecast_df }

/-- A float value as seen at the serialization boundary: finite, NaN, or a
signed infinity. -/
inductive FloatV where
  | finite (q : ℚ)
  | nan
  | inf
  | ninf
deriving DecidableEq

/-- `pd.isna` on one value. -/
def pd_isna : FloatV → Bool
  | FloatV.nan => true
  | _ => false

/-- `np.isinf` on one value. -/
def np_isinf : FloatV → Bool
  | FloatV.inf => true
  | FloatV.ninf => true
  | _ => false

/-- `float(x)` on a value already checked finite (junk 0 on the unreachable
non-finite branches). -/
def floatVal : FloatV → ℚ
  | FloatV.finite q => q
  | _ => 0

/-- The `_clean` helper of `app.diagnostics`:
`None if (pd.isna(x) or np.isinf(x)) else float(x)` element-wise. -/
def _clean (arr : List FloatV) : List (Option ℚ) :=
  arr.map (fun x => if pd_isna x || np_isinf x then none else some (floatVal x))

/-- Response of the `/diagnostics` route. -/
inductive DiagResp where
  | err (message : String) (series_length : Option Nat)
  | exn (e : String)
  | ok (lags : Nat) (acf : List (Option ℚ)) (pacf : List (Option ℚ))
      (series_length : Nat)
deriving DecidableEq

/-- The metric series `app.diagnostics` computes acf/pacf on: selected column
of the aggregated frame, missing values dropped ([] on the error paths). -/
def diagSeries (raw : Table) (metric : String) (site : Option String)
    (f : Freq) : List ℚ :=
  match _select_series (build_hourly_daily raw site f) metric with
  | Except.ok s0 => s0.filterMap (fun p => p.2)
  | Except.error _ => []

/-- The effective lag count `min(nlags, max(5, len(s) // 3))`. -/
def diagNlags (raw : Table) (metric : String) (site : Option String)
    (f : Freq) (nlags : Nat) : Nat :=
  min nlags (max 5 ((diagSeries raw metric site f).length / 3))

/-- `app.diagnostics`: aggregate, select the metric series, refuse when the
aggregate is empty or the series is shorter than 10 points, cap the lag count,
and return the `_clean`ed acf/pacf sequences.  The statsmodels `acf`/`pacf`
numerics are oracle parameters taking the series and the lag count. -/
def diagnostics (sm_acf sm_pacf : List ℚ → Nat → List FloatV) (raw : Table)
    (metric : String) (site : Option String) (f : Freq) (nlags : Nat) : DiagResp :=
  if (build_hourly_daily raw site f).index.isEmpty then
    DiagResp.err "No aggregated data available for diagnostics." none
  else
    match _select_series (build_hourly_daily raw site f) metric with
    | Except.error e => DiagResp.exn e
    | Except.ok _ =>
      if (diagSeries raw metric site f).length < 10 then
        DiagResp.err "Not enough data for diagnostics."
          (some (diagSeries raw metric site f).length)
      else
        DiagResp.ok (diagNlags raw metric site f nlags)
          (_clean (sm_acf (diagSeries raw metric site f)
            (diagNlags raw metric site f nlags)))
          (_clean (sm_pacf (diagSeries raw metric site f)
            (diagNlags raw metric site f nlags)))
          (diagSeries raw metric site f).length

/-- One row of the in-memory CSV frame `_LAST_FORECAST_DF`. -/
structure CsvRow where
  metric : String
  freq : Freq
  ts : Nat
  y_pred : ℚ
  lower : ℚ
  upper : ℚ
deriving DecidableEq

/-- Response of `/download/forecast.csv`: either a JSON error body with an
HTTP status, or the streamed CSV of the stored rows. -/
inductive DownloadResp where
  | jsonError (ok : Bool) (message : String) (status : Nat)
  | csv (rows : List CsvRow)
deriving DecidableEq

/-- `app.download_forecast_csv`: refuse with a structured 400 when no forecast
was stored yet (slot `None` or an empty frame), otherwise stream the CSV. -/
def download_forecast_csv (lastForecast : Option (List CsvRow)) : DownloadResp :=
  match lastForecast with
  | none => DownloadResp.jsonError false "No forecast available yet." 400
  | some df =>
    if df.isEmpty then DownloadResp.jsonError false "No forecast available yet." 400
    else DownloadResp.csv df

/-- Fixture: two sessions one empty hour apart (used to exhibit gap buckets). -/
def c2tbl : Table :=
  { cols := ["timestamp"],
    rows := [[("timestamp", Cell.time 0)], [("timestamp", Cell.time 7200)]] }

/-- Fixture: three consecutive hourly sessions (a short series). -/
def c7tbl : Table :=
  { cols := ["timestamp"],
    rows := [[("timestamp", Cell.time 0)], [("timestamp", Cell.time 3600)],
             [("timestamp", Cell.time 7200)]] }

/-- Fixture: ten consecutive hourly sessions (long enough for diagnostics). -/
def c9tbl : Table :=
  { cols := ["timestamp"],
    rows := (List.range 10).map (fun i => [("timestamp", Cell.time (3600 * i))]) }

/-- Fixture acf oracle returning non-finite and finite statistics. -/
def c9acf : List ℚ → Nat → List FloatV :=
  fun _ _ => [FloatV.nan, FloatV.inf, FloatV.finite 7]

/-- Fixture pacf oracle returning non-finite and finite statistics. -/
def c9pacf : List ℚ → Nat → List FloatV :=
  fun _ _ => [FloatV.ninf, FloatV.finite 2]

/-- Fixture fitting oracle with a single successful candidate. -/
def c8fitOne : Fit := fun o _ =>
  if o = (1, 0, 1) then
    some { aic := 5, predMean := fun _ => [], confLower := fun _ => [],
           confUpper := fun _ => [] }
  else none

end AppPy

theorem Freq.step_pos (f : Freq) : 0 < f.step := by
  cases f <;> decide

/-- C1: for every input table that is empty, has no timestamp-like column, or
has no rows surviving timestamp coercion, `app.build_hourly_daily` returns the
empty series whose column set is exactly {energy_kwh, sessions} with zero
rows, without raising an error. -/
theorem C1_empty_inputs_empty_shape (raw : Table) (site : Option String) (f : Freq)
    (h : raw.isEmptyTable = true ∨ AppPy._guess_timestamp_col raw = none ∨
      ∀ c, AppPy._guess_timestamp_col raw = some c → AppPy.dropBadTs raw.rows c = []) :
    AppPy.build_hourly_daily raw site f = AppPy.emptyAgg := by
  unfold AppPy.build_hourly_daily
  rcases h with h | h | h
  · simp [h]
  · simp [h]
  · by_cases he : raw.isEmptyTable
    · simp [he]
    · cases hg : AppPy._guess_timestamp_col raw with
      | none => simp [he, hg]
      | some c => simp [he, hg, h c hg]

theorem C1_witness :
    AppPy.build_hourly_daily { cols := ["x"], rows := [] } none Freq.H = AppPy.emptyAgg :=
  C1_empty_inputs_empty_shape _ _ _ (Or.inl (by decide))

/-- C4: for a detected energy column whose lowercased name contains "wh" but
not "kwh", every parsed energy value is divided by 1000 by
`utils.coerce_energy`; for any other column name the parsed value passes
through unchanged. -/
theorem C4_wh_normalization (df : Table) (col : String) (i : Nat) (r : Row) (q : ℚ)
    (hr : df.rows.get? i = some r) (hq : toNumeric (getCell r col) = some q) :
    (UtilsPy.coerce_energy df col).get? i =
      some (some (if (strContains (lowerStr col) "wh" && !strContains (lowerStr col) "kwh") = true
        then q / 1000 else q)) := by
  unfold UtilsPy.coerce_energy
  rw [List.get?_map, hr]
  simp only [Option.map_some', UtilsPy.coerce_energy_val, hq]
  split <;> rfl

theorem C4_witness :
    (UtilsPy.coerce_energy { cols := ["Wh"], rows := [[("Wh", Cell.num 1000)]] } "Wh").get? 0
      = some (some 1) := by
  rw [C4_wh_normalization _ "Wh" 0 [("Wh", Cell.num 1000)] 1000 (by decide) (by decide)]
  rw [if_pos (by decide :
    (strContains (lowerStr "Wh") "wh" && !strContains (lowerStr "Wh") "kwh") = true)]
  norm_num

/-- C5: when no timestamp, start, or end column is detected,
`utils.build_hourly_daily` raises (a hard failure), not a fallback value. -/
theorem C5_no_time_columns_error (df : Table) (site : Option String) (f : Freq)
    (hts : (UtilsPy.detect_columns df).ts_col = none)
    (hst : (UtilsPy.detect_columns df).start_col = none)
    (hen : (UtilsPy.detect_columns df).end_col = none) :
    UtilsPy.build_hourly_daily df site f = Except.error
      "No timestamp/start/end column found; map columns explicitly in your CSV/JSON." := by
  unfold UtilsPy.build_hourly_daily
  simp [hts, hst, hen]

theorem C5_witness :
    UtilsPy.build_hourly_daily { cols := ["value"], rows := [] } none Freq.H = Except.error
      "No timestamp/start/end column found; map columns explicitly in your CSV/JSON." :=
  C5_no_time_columns_error _ _ _ (by decide) (by decide) (by decide)

/-- C10: invoking the CSV export with the last-forecast slot empty returns the
structured failure response (ok false, message, HTTP 400) rather than raising
or emitting an empty CSV. -/
theorem C10_download_before_forecast :
    AppPy.download_forecast_csv none =
      AppPy.DownloadResp.jsonError false "No forecast available yet." 400 := rfl

theorem bucketIndex_pairwise (f : Freq) (l : List Nat) :
    List.Pairwise (· < ·) (bucketIndex f l) := by
  cases l with
  | nil => exact List.Pairwise.nil
  | cons t rest =>
    unfold bucketIndex
    rw [List.pairwise_map]
    exact (List.sorted_lt_range _).imp (fun hab =>
      Nat.add_lt_add_left (mul_lt_mul_of_pos_right hab (Freq.step_pos f)) _)

/-- C3: for every input table, site filter and frequency, the output index of
`app.build_hourly_daily` is sorted strictly ascending with no duplicate bucket
timestamps, and the bucket timestamp keys the rows (one data row per index
entry). -/
theorem C3_index_strictly_increasing (raw : Table) (site : Option String) (f : Freq) :
    List.Pairwise (· < ·) (AppPy.build_hourly_daily raw site f).index ∧
    (AppPy.build_hourly_daily raw site f).index.Nodup ∧
    (AppPy.build_hourly_daily raw site f).data.length =
      (AppPy.build_hourly_daily raw site f).index.length := by
  have hp : List.Pairwise (· < ·) (AppPy.build_hourly_daily raw site f).index := by
    unfold AppPy.build_hourly_daily
    split
    · exact List.Pairwise.nil
    · split
      · exact List.Pairwise.nil
      · split
        · exact List.Pairwise.nil
        · split
          · exact List.Pairwise.nil
          · exact bucketIndex_pairwise f _
  refine ⟨hp, hp.imp (fun h => Nat.ne_of_lt h), ?_⟩
  unfold AppPy.build_hourly_daily
  split
  · rfl
  · split
    · rfl
    · split
      · rfl
      · split
        · rfl
        · exact List.length_map _ _

theorem foldl_min_le_init (l : List Nat) (a : Nat) : l.foldl min a ≤ a := by
  induction l generalizing a with
  | nil => exact Nat.le_refl a
  | cons x l ih => exact Nat.le_trans (ih (min a x)) (Nat.min_le_left a x)

theorem foldl_min_le_mem (l : List Nat) :
    ∀ (a x : Nat), x ∈ l → l.foldl min a ≤ x := by
  induction l with
  | nil => intro a x hx; cases hx
  | cons y l ih =>
    intro a x hx
    rcases List.mem_cons.mp hx with h | h
    · subst h
      exact Nat.le_trans (foldl_min_le_init l _) (Nat.min_le_right a x)
    · exact ih (min a y) x h

theorem foldl_min_init_or_mem (l : List Nat) :
    ∀ a, l.foldl min a = a ∨ l.foldl min a ∈ l := by
  induction l with
  | nil => exact fun a => Or.inl rfl
  | cons x l ih =>
    intro a
    rw [List.foldl_cons]
    rcases ih (min a x) with h | h
    · rcases Nat.le_total a x with hax | hxa
      · exact Or.inl (by rw [h, Nat.min_eq_left hax])
      · refine Or.inr ?_
        rw [h, Nat.min_eq_right hxa]
        exact List.mem_cons_self x l
    · exact Or.inr (List.mem_cons_of_mem x h)

theorem init_le_foldl_max (l : List Nat) (a : Nat) : a ≤ l.foldl max a := by
  induction l generalizing a with
  | nil => exact Nat.le_refl a
  | cons x l ih => exact Nat.le_trans (Nat.le_max_left a x) (ih (max a x))

theorem mem_le_foldl_max (l : List Nat) :
    ∀ (a x : Nat), x ∈ l → x ≤ l.foldl max a := by
  induction l with
  | nil => intro a x hx; cases hx
  | cons y l ih =>
    intro a x hx
    rcases List.mem_cons.mp hx with h | h
    · subst h
      exact Nat.le_trans (Nat.le_max_right a x) (init_le_foldl_max l _)
    · exact ih (max a y) x h

theorem foldl_max_init_or_mem (l : List Nat) :
    ∀ a, l.foldl max a = a ∨ l.foldl max a ∈ l := by
  induction l with
  | nil => exact fun a => Or.inl rfl
  | cons x l ih =>
    intro a
    rw [List.foldl_cons]
    rcases ih (max a x) with h | h
    · rcases Nat.le_total a x with hax | hxa
      · refine Or.inr ?_
        rw [h, Nat.max_eq_right hax]
        exact List.mem_cons_self x l
      · exact Or.inl (by rw [h, Nat.max_eq_left hxa])
    · exact Or.inr (List.mem_cons_of_mem x h)

theorem step_dvd_truncTo (f : Freq) (t : Nat) : f.step ∣ truncTo f t := by
  unfold truncTo
  exact Dvd.intro_left _ rfl

theorem step_dvd_minBucketL (f : Freq) (t : Nat) (rest : List Nat) :
    f.step ∣ minBucketL f (t :: rest) := by
  rw [minBucketL]
  rcases foldl_min_init_or_mem (rest.map (truncTo f)) (truncTo f t) with h | h
  · rw [h]; exact step_dvd_truncTo f t
  · obtain ⟨u, _, hequ⟩ := List.mem_map.mp h
    rw [← hequ]
    exact step_dvd_truncTo f u

theorem step_dvd_maxBucketL (f : Freq) (t : Nat) (rest : List Nat) :
    f.step ∣ maxBucketL f (t :: rest) := by
  rw [maxBucketL]
  rcases foldl_max_init_or_mem (rest.map (truncTo f)) (truncTo f t) with h | h
  · rw [h]; exact step_dvd_truncTo f t
  · obtain ⟨u, _, hequ⟩ := List.mem_map.mp h
    rw [← hequ]
    exact step_dvd_truncTo f u

theorem minBucketL_le_maxBucketL (f : Freq) (t : Nat) (rest : List Nat) :
    minBucketL f (t :: rest) ≤ maxBucketL f (t :: rest) := by
  rw [minBucketL, maxBucketL]
  exact Nat.le_trans (foldl_min_le_init _ _) (init_le_foldl_max _ _)

theorem mem_bucketIndex_iff (f : Freq) (t : Nat) (rest : List Nat) (b : Nat) :
    b ∈ bucketIndex f (t :: rest) ↔
      f.step ∣ b ∧ minBucketL f (t :: rest) ≤ b ∧ b ≤ maxBucketL f (t :: rest) := by
  have hdmn := step_dvd_minBucketL f t rest
  have hdmx := step_dvd_maxBucketL f t rest
  have hmnmx := minBucketL_le_maxBucketL f t rest
  constructor
  · intro hb
    rw [bucketIndex] at hb
    obtain ⟨i, hi, rfl⟩ := List.mem_map.mp hb
    have hi' : i ≤ (maxBucketL f (t :: rest) - minBucketL f (t :: rest)) / f.step :=
      Nat.lt_succ_iff.mp (List.mem_range.mp hi)
    refine ⟨Dvd.dvd.add hdmn (dvd_mul_left f.step i), Nat.le_add_right _ _, ?_⟩
    calc minBucketL f (t :: rest) + i * f.step
        ≤ minBucketL f (t :: rest) +
            (maxBucketL f (t :: rest) - minBucketL f (t :: rest)) :=
          Nat.add_le_add_left
            (Nat.le_trans (Nat.mul_le_mul_right _ hi') (Nat.div_mul_le_self _ _)) _
      _ = maxBucketL f (t :: rest) := Nat.add_sub_cancel' hmnmx
  · rintro ⟨hdb, hmnb, hbmx⟩
    rw [bucketIndex]
    refine List.mem_map.mpr ⟨(b - minBucketL f (t :: rest)) / f.step,
      List.mem_range.mpr (Nat.lt_succ_iff.mpr
        (Nat.div_le_div_right (Nat.sub_le_sub_right hbmx _))), ?_⟩
    rw [Nat.div_mul_cancel (Nat.dvd_sub' hdb hdmn)]
    exact Nat.add_sub_cancel' hmnb

theorem siteFilter_nil (siteCol : Option String) (site : Option String) :
    AppPy.siteFilter siteCol site [] = [] := by
  unfold AppPy.siteFilter
  cases site <;> cases siteCol <;> rfl

theorem guess_ts_none_of_no_cols (raw : Table) (hc : raw.cols = []) :
    AppPy._guess_timestamp_col raw = none := by
  unfold AppPy._guess_timestamp_col
  rw [hc]
  rfl

theorem build_index_eq (raw : Table) (site : Option String) (f : Freq)
    (hne : AppPy.survivors raw site ≠ []) :
    (AppPy.build_hourly_daily raw site f).index =
      bucketIndex f ((AppPy.survivors raw site).map (fun rt => rt.2)) := by
  cases hg : AppPy._guess_timestamp_col raw with
  | none =>
    exact absurd (by rw [AppPy.survivors, hg]) hne
  | some tsCol =>
    have hsurv : AppPy.survivors raw site =
        AppPy.siteFilter (AppPy._guess_site_col raw) site
          (AppPy.dropBadTs raw.rows tsCol) := by
      rw [AppPy.survivors, hg]
    have hrows1 : AppPy.dropBadTs raw.rows tsCol ≠ [] := by
      intro h0
      exact hne (by rw [hsurv, h0, siteFilter_nil])
    have hrows2 : AppPy.siteFilter (AppPy._guess_site_col raw) site
        (AppPy.dropBadTs raw.rows tsCol) ≠ [] := fun h0 => hne (hsurv.trans h0)
    have hempty : raw.isEmptyTable = false := by
      rw [Table.isEmptyTable]
      rcases hr : raw.rows with _ | _
      · exact absurd (by rw [AppPy.dropBadTs, hr]; rfl) hrows1
      · rcases hc : raw.cols with _ | _
        · exact absurd (guess_ts_none_of_no_cols raw hc) (by rw [hg]; simp)
        · rfl
    unfold AppPy.build_hourly_daily
    rw [hempty, hg]
    simp only [Bool.false_eq_true, if_false,
      List.isEmpty_eq_true]
    rw [if_neg hrows1, if_neg hrows2, hsurv]

theorem bucket_zero_of_no_source (raw : Table) (site : Option String) (f : Freq)
    (b : Nat) (h : AppPy.groupAt raw site f b = []) :
    AppPy.bucketEnergy raw site f b = 0 ∧ AppPy.bucketSessions raw site f b = 0 := by
  constructor
  · rw [AppPy.bucketEnergy, h]
    rfl
  · rw [AppPy.bucketSessions, h]
    rfl

/-- C2 counterexample: on a two-session table with timestamps one empty hour
apart, the hourly output of `app.build_hourly_daily` contains a bucket (10:00,
i.e. 3600) with no source row — `pd.Grouper` fills range-interior gaps, so the
claim that zero-row buckets are absent from the output is false. -/
theorem C2_counterexample :
    ¬ (∀ b ∈ (AppPy.build_hourly_daily AppPy.c2tbl none Freq.H).index,
        ∃ rt ∈ AppPy.survivors AppPy.c2tbl none, truncTo Freq.H rt.2 = b) := by
  decide

/-- C2 (amended): for every non-empty canonical input, the output index of
`app.build_hourly_daily` is exactly the frequency-aligned buckets from the
first to the last observed bucket — buckets with zero source rows in that
range are present, not absent, and carry `energy_kwh = 0` and `sessions = 0`
(zero-filled gap rows are emitted). -/
theorem C2_amended_gap_buckets (raw : Table) (site : Option String) (f : Freq)
    (hne : AppPy.survivors raw site ≠ []) (b : Nat) :
    (b ∈ (AppPy.build_hourly_daily raw site f).index ↔
      f.step ∣ b ∧
        minBucketL f ((AppPy.survivors raw site).map (fun rt => rt.2)) ≤ b ∧
        b ≤ maxBucketL f ((AppPy.survivors raw site).map (fun rt => rt.2))) ∧
    (AppPy.groupAt raw site f b = [] →
      AppPy.bucketEnergy raw site f b = 0 ∧ AppPy.bucketSessions raw site f b = 0) := by
  refine ⟨?_, bucket_zero_of_no_source raw site f b⟩
  rw [build_index_eq raw site f hne]
  cases hs : (AppPy.survivors raw site).map (fun rt => rt.2) with
  | nil => exact absurd (List.map_eq_nil_iff.mp hs) hne
  | cons t rest => exact mem_bucketIndex_iff f t rest b

theorem C2_amended_witness :
    3600 ∈ (AppPy.build_hourly_daily AppPy.c2tbl none Freq.H).index ∧
    AppPy.groupAt AppPy.c2tbl none Freq.H 3600 = [] ∧
    AppPy.bucketEnergy AppPy.c2tbl none Freq.H 3600 = 0 ∧
    AppPy.bucketSessions AppPy.c2tbl none Freq.H 3600 = 0 := by
  have h := C2_amended_gap_buckets AppPy.c2tbl none Freq.H (by decide) 3600
  exact ⟨h.1.mpr (by decide), by decide,
    (h.2 (by decide)).1, (h.2 (by decide)).2⟩

theorem gridFold_none (fit : AppPy.Fit) (l : List (AppPy.Order × AppPy.SOrder))
    (hall : ∀ c ∈ l, fit c.1 (AppPy.adjSeasonal c.2) = none) :
    l.foldl (AppPy.gridStep fit) none = none := by
  induction l with
  | nil => rfl
  | cons c l ih =>
    rw [List.foldl_cons]
    have hc := hall c (List.mem_cons_self c l)
    simp only [AppPy.gridStep, hc]
    exact ih (fun c' hc' => hall c' (List.mem_cons_of_mem c hc'))

theorem gridFold_aic_le (fit : AppPy.Fit) (l : List (AppPy.Order × AppPy.SOrder)) :
    ∀ b0 b, l.foldl (AppPy.gridStep fit) (some b0) = some b → b.1 ≤ b0.1 := by
  induction l with
  | nil =>
    intro b0 b h
    cases h
    exact le_refl _
  | cons c l ih =>
    intro b0 b h
    rw [List.foldl_cons] at h
    cases hc : fit c.1 (AppPy.adjSeasonal c.2) with
    | none =>
      simp only [AppPy.gridStep, hc] at h
      exact ih b0 b h
    | some res =>
      simp only [AppPy.gridStep, hc] at h
      by_cases hlt : res.aic < b0.1
      · rw [if_pos hlt] at h
        exact le_trans (ih _ b h) (le_of_lt hlt)
      · rw [if_neg hlt] at h
        exact ih b0 b h

theorem gridFold_min (fit : AppPy.Fit) (l : List (AppPy.Order × AppPy.SOrder)) :
    ∀ init b, l.foldl (AppPy.gridStep fit) init = some b →
      ∀ c ∈ l, ∀ res, fit c.1 (AppPy.adjSeasonal c.2) = some res → b.1 ≤ res.aic := by
  induction l with
  | nil =>
    intro init b _ c hc
    cases hc
  | cons c0 l ih =>
    intro init b h c hc res hres
    rw [List.foldl_cons] at h
    rcases List.mem_cons.mp hc with hceq | hcl
    · subst hceq
      cases init with
      | none =>
        simp only [AppPy.gridStep, hres] at h
        exact le_trans (gridFold_aic_le fit l _ b h) (le_refl _)
      | some b0 =>
        simp only [AppPy.gridStep, hres] at h
        by_cases hlt : res.aic < b0.1
        · rw [if_pos hlt] at h
          exact gridFold_aic_le fit l _ b h
        · rw [if_neg hlt] at h
          exact le_trans (gridFold_aic_le fit l b0 b h) (le_of_not_lt hlt)
    · exact ih (AppPy.gridStep fit init c0) b h c hcl res hres

theorem gridFold_origin (fit : AppPy.Fit) (l : List (AppPy.Order × AppPy.SOrder)) :
    ∀ init b, l.foldl (AppPy.gridStep fit) init = some b →
      init = some b ∨ ((b.2.1, b.2.2) ∈ l ∧
        ∃ res, fit b.2.1 (AppPy.adjSeasonal b.2.2) = some res ∧ res.aic = b.1) := by
  induction l with
  | nil =>
    intro init b h
    exact Or.inl h
  | cons c0 l ih =>
    intro init b h
    rw [List.foldl_cons] at h
    rcases ih (AppPy.gridStep fit init c0) b h with hstep | ⟨hmem, hres⟩
    · cases hc : fit c0.1 (AppPy.adjSeasonal c0.2) with
      | none =>
        simp only [AppPy.gridStep, hc] at hstep
        exact Or.inl hstep
      | some res =>
        cases init with
        | none =>
          simp only [AppPy.gridStep, hc] at hstep
          cases hstep
          exact Or.inr ⟨List.mem_cons_self c0 l, res, hc, rfl⟩
        | some b0 =>
          simp only [AppPy.gridStep, hc] at hstep
          by_cases hlt : res.aic < b0.1
          · rw [if_pos hlt] at hstep
            cases hstep
            exact Or.inr ⟨List.mem_cons_self c0 l, res, hc, rfl⟩
          · rw [if_neg hlt] at hstep
            exact Or.inl hstep
    · exact Or.inr ⟨List.mem_cons_of_mem c0 hmem, hres⟩

/-- C8: in the exhaustive search `app.small_grid_search`, candidates that fail
to fit are skipped; a returned result is a successfully fitted grid candidate
of minimum AIC among all successful fits; and when every candidate in the grid
fails to fit, the search raises a hard failure instead of returning a default
model. -/
theorem C8_small_grid_search (fit : AppPy.Fit) (sp : Nat) :
    ((∀ c ∈ AppPy.gridCandidates sp, fit c.1 (AppPy.adjSeasonal c.2) = none) →
      AppPy.small_grid_search fit sp =
        Except.error "Grid search failed. Try different settings or more data.")
    ∧ (∀ a o so, AppPy.small_grid_search fit sp = Except.ok (a, o, so) →
        (o, so) ∈ AppPy.gridCandidates sp ∧
        (∃ res, fit o (AppPy.adjSeasonal so) = some res ∧ res.aic = a) ∧
        (∀ c ∈ AppPy.gridCandidates sp, ∀ res,
          fit c.1 (AppPy.adjSeasonal c.2) = some res → a ≤ res.aic)) := by
  constructor
  · intro hall
    unfold AppPy.small_grid_search
    rw [gridFold_none fit _ hall]
  · intro a o so h
    unfold AppPy.small_grid_search at h
    cases hf : (AppPy.gridCandidates sp).foldl (AppPy.gridStep fit) none with
    | none =>
      rw [hf] at h
      cases h
    | some b =>
      rw [hf] at h
      have hb : b = (a, o, so) := by injection h
      subst hb
      rcases gridFold_origin fit _ none (a, o, so) hf with h0 | ⟨hmem, hres⟩
      · cases h0
      · exact ⟨hmem, hres, gridFold_min fit _ none (a, o, so) hf⟩

theorem C8_witness :
    AppPy.small_grid_search (fun _ _ => none) 0 =
      Except.error "Grid search failed. Try different settings or more data."
    ∧ (((1, 0, 1), (0, 0, 0, 0)) : AppPy.Order × AppPy.SOrder) ∈ AppPy.gridCandidates 0 := by
  constructor
  · exact (C8_small_grid_search (fun _ _ => none) 0).1 (fun c _ => rfl)
  · exact ((C8_small_grid_search AppPy.c8fitOne 0).2 5 (1, 0, 1) (0, 0, 0, 0) rfl).1

theorem clean_get_nonfinite (arr : List AppPy.FloatV) (i : Nat) (x : AppPy.FloatV)
    (hx : arr.get? i = some x) (hnf : (AppPy.pd_isna x || AppPy.np_isinf x) = true) :
    (AppPy._clean arr).get? i = some none := by
  unfold AppPy._clean
  rw [List.get?_map, hx, Option.map_some', if_pos hnf]

theorem clean_some_finite (arr : List AppPy.FloatV) (q : ℚ)
    (h : some q ∈ AppPy._clean arr) : AppPy.FloatV.finite q ∈ arr := by
  unfold AppPy._clean at h
  obtain ⟨x, hx, hex⟩ := List.mem_map.mp h
  by_cases hnf : (AppPy.pd_isna x || AppPy.np_isinf x) = true
  · rw [if_pos hnf] at hex
    cases hex
  · rw [if_neg hnf] at hex
    cases x with
    | finite q' =>
      have hq : q' = q := by injection hex
      subst hq
      exact hx
    | nan => exact absurd rfl hnf
    | inf => exact absurd rfl hnf
    | ninf => exact absurd rfl hnf

/-- C9: whenever `app.diagnostics` returns a result, every non-finite value
(NaN or infinite) in the computed acf or pacf sequence is replaced by a null
marker at its position, and every value appearing in the returned acf or pacf
sequence stems from a finite computed statistic — no raw NaN or Infinity value
appears in the output sequences. -/
theorem C9_diagnostics_nonfinite_nulled
    (sm_acf sm_pacf : List ℚ → Nat → List AppPy.FloatV) (raw : Table)
    (metric : String) (site : Option String) (f : Freq) (nlags lags n : Nat)
    (a p : List (Option ℚ))
    (h : AppPy.diagnostics sm_acf sm_pacf raw metric site f nlags =
      AppPy.DiagResp.ok lags a p n) :
    (∀ i x, (sm_acf (AppPy.diagSeries raw metric site f)
          (AppPy.diagNlags raw metric site f nlags)).get? i = some x →
        (AppPy.pd_isna x || AppPy.np_isinf x) = true → a.get? i = some none) ∧
    (∀ q, some q ∈ a → AppPy.FloatV.finite q ∈
      sm_acf (AppPy.diagSeries raw metric site f)
        (AppPy.diagNlags raw metric site f nlags)) ∧
    (∀ i x, (sm_pacf (AppPy.diagSeries raw metric site f)
          (AppPy.diagNlags raw metric site f nlags)).get? i = some x →
        (AppPy.pd_isna x || AppPy.np_isinf x) = true → p.get? i = some none) ∧
    (∀ q, some q ∈ p → AppPy.FloatV.finite q ∈
      sm_pacf (AppPy.diagSeries raw metric site f)
        (AppPy.diagNlags raw metric site f nlags)) := by
  unfold AppPy.diagnostics at h
  split at h
  · cases h
  · split at h
    · cases h
    · split at h
      · cases h
      · have ha : a = AppPy._clean (sm_acf (AppPy.diagSeries raw metric site f)
            (AppPy.diagNlags raw metric site f nlags)) := by
          injection h with h1 h2 h3 h4
          exact h2.symm
        have hp : p = AppPy._clean (sm_pacf (AppPy.diagSeries raw metric site f)
            (AppPy.diagNlags raw metric site f nlags)) := by
          injection h with h1 h2 h3 h4
          exact h3.symm
        subst ha hp
        exact ⟨fun i x hx hnf => clean_get_nonfinite _ i x hx hnf,
          fun q hq => clean_some_finite _ q hq,
          fun i x hx hnf => clean_get_nonfinite _ i x hx hnf,
          fun q hq => clean_some_finite _ q hq⟩

theorem C9_witness :
    ([none, none, some (7 : ℚ)] : List (Option ℚ)).get? 0 = some none := by
  have h := C9_diagnostics_nonfinite_nulled AppPy.c9acf AppPy.c9pacf AppPy.c9tbl
    "energy" none Freq.H 40 5 10 [none, none, some 7] [none, some 2] (by decide)
  exact h.1 0 AppPy.FloatV.nan (by decide) (by decide)

/-- C6: whenever the statistical fit raises (the oracle fails on every order),
`_run_model` returns the linear-trend fallback: the result is marked
`fallback = true`, carries no accuracy metrics and no validation frame, and for
every step k in 1..horizon the point forecast is the last observed value plus
k times the trend estimate `(last - point min(5, len//2) back) / max(1, min(5, len//2))`,
with interval bounds exactly 0.9 and 1.1 times the point forecast. -/
theorem C6_fallback_linear_trend (fit : AppPy.Fit) (req : AppPy.ForecastRequest)
    (y y_train y_test : List (Nat × ℚ))
    (hfail : ∀ o so, fit o so = none) :
    (AppPy._run_model fit req y y_train y_test).fallback = true ∧
    (AppPy._run_model fit req y y_train y_test).metrics = none ∧
    (AppPy._run_model fit req y y_train y_test).val_df = none ∧
    (AppPy._run_model fit req y y_train y_test).forecast_df.length = req.horizon ∧
    ∀ k, 1 ≤ k → k ≤ req.horizon →
      (AppPy._run_model fit req y y_train y_test).forecast_df.get? (k - 1) =
        some { ts := AppPy.lastTs y + k * req.freq.step,
               y_pred := AppPy.lastVal y +
                 (AppPy.lastVal y - AppPy.trendBase y) /
                   ((max 1 (AppPy.trendBack y) : Nat) : ℚ) * (k : ℚ),
               lower := (AppPy.lastVal y +
                 (AppPy.lastVal y - AppPy.trendBase y) /
                   ((max 1 (AppPy.trendBack y) : Nat) : ℚ) * (k : ℚ)) * (9 / 10),
               upper := (AppPy.lastVal y +
                 (AppPy.lastVal y - AppPy.trendBase y) /
                   ((max 1 (AppPy.trendBack y) : Nat) : ℚ) * (k : ℚ)) * (11 / 10) } := by
  have hrm : AppPy._run_model fit req y y_train y_test =
      { fallback := true,
        forecast_df := AppPy.fallbackForecast y req.freq req.horizon,
        order := (0, 0, 0), seasonal_order := (0, 0, 0, 0),
        metrics := none, val_df := none } := by
    unfold AppPy._run_model
    simp only [hfail]
  rw [hrm]
  refine ⟨rfl, rfl, rfl, by simp [AppPy.fallbackForecast], ?_⟩
  intro k hk1 hk2
  have hk : k - 1 + 1 = k := Nat.succ_pred_eq_of_pos hk1
  unfold AppPy.fallbackForecast
  rw [List.get?_map, List.get?_range (by omega : k - 1 < req.horizon)]
  simp only [Option.map_some']
  rw [hk]
  rfl

theorem C6_witness :
    (AppPy._run_model (fun _ _ => none) {} [(0, (2 : ℚ)), (3600, 4)] [] []).forecast_df.get? 0 =
      some { ts := 7200, y_pred := 4, lower := 18 / 5, upper := 22 / 5 } := by
  have h := (C6_fallback_linear_trend (fun _ _ => none) {} [(0, (2 : ℚ)), (3600, 4)] [] []
    (fun _ _ => rfl)).2.2.2.2 1 (by decide) (by decide)
  have h1 : AppPy.lastVal [(0, (2 : ℚ)), (3600, 4)] = 4 := rfl
  have h2 : AppPy.trendBase [(0, (2 : ℚ)), (3600, 4)] = 4 := rfl
  have h3 : AppPy.trendBack [(0, (2 : ℚ)), (3600, 4)] = 1 := rfl
  have h4 : AppPy.lastTs [(0, (2 : ℚ)), (3600, 4)] = 3600 := rfl
  rw [h1, h2, h3, h4] at h
  rw [h]
  norm_num [AppPy.FRow.mk.injEq, Freq.step]

theorem build_columns_of_index_ne (raw : Table) (site : Option String) (f : Freq)
    (h : (AppPy.build_hourly_daily raw site f).index ≠ []) :
    (AppPy.build_hourly_daily raw site f).columns =
      "energy_kwh" :: "sessions" :: AppPy.extraNames raw := by
  revert h
  unfold AppPy.build_hourly_daily
  split
  · exact fun h => absurd rfl h
  · split
    · exact fun h => absurd rfl h
    · split
      · exact fun h => absurd rfl h
      · split
        · exact fun h => absurd rfl h
        · exact fun _ => rfl

/-- C7: for every aggregated series with fewer than 20 non-missing points (the
aggregate itself being non-empty and the metric valid), `app.forecast` returns
the structured insufficient-data response carrying the observed series length,
for every fitting oracle — so it neither raises nor proceeds to fit. -/
theorem C7_insufficient_data (fitO : List (Nat × ℚ) → AppPy.Fit) (raw : Table)
    (req : AppPy.ForecastRequest)
    (hm : req.metric = "energy" ∨ req.metric = "sessions")
    (hagg : (AppPy.build_hourly_daily raw req.site req.freq).index ≠ [])
    (hlen : (AppPy.forecastSeries raw req).length < 20) :
    AppPy.forecast fitO raw req = AppPy.ForecastResp.insufficient
      "Not enough data points for forecasting."
      (AppPy.forecastSeries raw req).length := by
  have hcols := build_columns_of_index_ne raw req.site req.freq hagg
  have hh : ¬ ((AppPy.build_hourly_daily raw req.site req.freq).index.isEmpty = true) :=
    fun hht => hagg (List.isEmpty_iff.mp hht)
  unfold AppPy.forecast
  rw [if_neg hh]
  cases hsel : AppPy._select_series (AppPy.build_hourly_daily raw req.site req.freq)
      req.metric with
  | error e =>
    exfalso
    unfold AppPy._select_series at hsel
    rcases hm with hm | hm <;>
      (rw [hm, hcols] at hsel
       simp at hsel)
  | ok s0 =>
    have hfs : AppPy.forecastSeries raw req =
        s0.filterMap (fun p => p.2.map (fun q => (p.1, q))) := by
      unfold AppPy.forecastSeries
      rw [hsel]
    dsimp only
    rw [← hfs, if_pos hlen]

theorem C7_witness :
    AppPy.forecast (fun _ _ _ => none) AppPy.c7tbl {} =
      AppPy.ForecastResp.insufficient "Not enough data points for forecasting." 3 := by
  have h := C7_insufficient_data (fun _ _ _ => none) AppPy.c7tbl {}
    (Or.inl rfl) (by decide) (by decide)
  rw [h]
  decide
